import Mathlib

/-!
Shallow embedding of `src/app/main.py` (a Slack ↔ ChatGPT relay bot) and
proofs about it.

Strings are modelled as `List Char`.  `removeAll pat s` models Python's
`s.replace(pat, '')` (leftmost, non-overlapping occurrences); `containsSub`
models Python's `pat in s`; `List.isPrefixOf` models `s.startswith(pat)`
for the one-character prefixes the code uses.

The module-level constants `BOT_NAME`, `BOT_MENTION` and the Slack/OpenAI
clients are modelled as explicit parameters: `botName` for the configured
bot handle, and a `World` record of external calls for the effectful
handlers (introduced further below).
-/

set_option maxRecDepth 8000

deriving instance DecidableEq for Except

namespace SlackBot

/-- Message text, user ids, timestamps: Python `str` as a list of characters. -/
abbrev Str : Type := List Char

/-- Auxiliary scanner for `removeAll`: `k` counts characters still to skip
because they belong to an occurrence of the pattern that has already been
matched.  At `k = 0` it tests for a fresh occurrence of `pat` and either
starts skipping it or keeps the current character. -/
def removeAllAux (pat : Str) : Nat → Str → Str
  | _, [] => []
  | Nat.succ k, _ :: rest => removeAllAux pat k rest
  | 0, c :: rest =>
    if pat ≠ [] ∧ pat.isPrefixOf (c :: rest) then
      removeAllAux pat (pat.length - 1) rest
    else
      c :: removeAllAux pat 0 rest

/-- Python `s.replace(pat, '')`: delete every (leftmost, non-overlapping)
occurrence of `pat` from `s`; the empty pattern deletes nothing. -/
def removeAll (pat s : Str) : Str := removeAllAux pat 0 s

/-- Python `pat in s`: substring containment. -/
def containsSub (pat : Str) : Str → Bool
  | [] => pat.isPrefixOf []
  | c :: rest => pat.isPrefixOf (c :: rest) || containsSub pat rest

/-- `BOT_MENTION = f'<@{BOT_NAME}>'` from `main.py`, as a function of the
configured bot name. -/
def BOT_MENTION (botName : Str) : Str := '<' :: '@' :: (botName ++ ['>'])

theorem removeAllAux_length_le (pat : Str) :
    ∀ (k : Nat) (s : Str), (removeAllAux pat k s).length ≤ s.length := by
  intro k s
  induction s generalizing k with
  | nil => simp [removeAllAux]
  | cons c rest ih =>
    cases k with
    | succ j => simpa [removeAllAux] using Nat.le_succ_of_le (ih j)
    | zero =>
      rw [removeAllAux]
      split
      · exact Nat.le_succ_of_le (ih (pat.length - 1))
      · simpa using ih 0

theorem removeAll_length_le (pat s : Str) : (removeAll pat s).length ≤ s.length :=
  removeAllAux_length_le pat 0 s

theorem removeAll_length_lt (pat s : Str) (hne : pat ≠ [])
    (hpre : pat.isPrefixOf s) : (removeAll pat s).length < s.length := by
  cases s with
  | nil =>
    cases pat with
    | nil => exact absurd rfl hne
    | cons a t => simp [List.isPrefixOf] at hpre
  | cons c rest =>
    have hstep : removeAll pat (c :: rest) = removeAllAux pat (pat.length - 1) rest := by
      simp [removeAll, removeAllAux, hne, hpre]
    rw [hstep]
    exact Nat.lt_succ_of_le (removeAllAux_length_le pat _ rest)

/-- `delete_prefix` from `main.py`: delete every occurrence of the bot
mention, then while the text starts with a space or a newline, delete every
occurrence of that character (`message.replace(prefix, '')`) and recurse. -/
def delete_prefix (botName : Str) (message : Str) : Str :=
  let message1 := removeAll (BOT_MENTION botName) message
  if h1 : ([' '] : Str).isPrefixOf message1 then
    delete_prefix botName (removeAll ([' '] : Str) message1)
  else if h2 : (['\n'] : Str).isPrefixOf message1 then
    delete_prefix botName (removeAll (['\n'] : Str) message1)
  else message1
termination_by message.length
decreasing_by
  · exact Nat.lt_of_lt_of_le
      (removeAll_length_lt _ _ (by simp) h1) (removeAll_length_le _ _)
  · exact Nat.lt_of_lt_of_le
      (removeAll_length_lt _ _ (by simp) h2) (removeAll_length_le _ _)

/-- Unfolding of `delete_prefix` when the mention-free text starts with a space. -/
theorem delete_prefix_of_space (botName message : Str)
    (h1 : ([' '] : Str).isPrefixOf (removeAll (BOT_MENTION botName) message)) :
    delete_prefix botName message
      = delete_prefix botName
          (removeAll ([' '] : Str) (removeAll (BOT_MENTION botName) message)) := by
  rw [ delete_prefix]
  simp [h1]

/-- Unfolding of `delete_prefix` when the mention-free text starts with a
newline but not with a space. -/
theorem delete_prefix_of_newline (botName message : Str)
    (h1 : ¬ ([' '] : Str).isPrefixOf (removeAll (BOT_MENTION botName) message))
    (h2 : (['\n'] : Str).isPrefixOf (removeAll (BOT_MENTION botName) message)) :
    delete_prefix botName message
      = delete_prefix botName
          (removeAll (['\n'] : Str) (removeAll (BOT_MENTION botName) message)) := by
  rw [ delete_prefix]
  simp [h1, h2]

/-- Unfolding of `delete_prefix` when the mention-free text starts with
neither a space nor a newline. -/
theorem delete_prefix_of_none (botName message : Str)
    (h1 : ¬ ([' '] : Str).isPrefixOf (removeAll (BOT_MENTION botName) message))
    (h2 : ¬ (['\n'] : Str).isPrefixOf (removeAll (BOT_MENTION botName) message)) :
    delete_prefix botName message = removeAll (BOT_MENTION botName) message := by
  rw [ delete_prefix]
  simp [h1, h2]

/-- `delete_prefix` never returns a string that starts with a space or a
newline: the only non-recursive exit is the branch where both tests failed. -/
theorem delete_prefix_no_leading (botName message : Str) :
    (([' '] : Str).isPrefixOf ( delete_prefix botName message) = false)
    ∧ ((['\n'] : Str).isPrefixOf ( delete_prefix botName message) = false) := by
  by_cases h1 : ([' '] : Str).isPrefixOf (removeAll (BOT_MENTION botName) message)
  · rw [ delete_prefix_of_space botName message h1]
    exact delete_prefix_no_leading botName _
  · by_cases h2 : (['\n'] : Str).isPrefixOf (removeAll (BOT_MENTION botName) message)
    · rw [ delete_prefix_of_newline botName message h1 h2]
      exact delete_prefix_no_leading botName _
    · rw [ delete_prefix_of_none botName message h1 h2]
      exact ⟨by simpa only [Bool.not_eq_true] using h1,
        by simpa only [Bool.not_eq_true] using h2⟩
termination_by message.length
decreasing_by
  · exact Nat.lt_of_lt_of_le
      (removeAll_length_lt _ _ (by simp) h1) (removeAll_length_le _ _)
  · exact Nat.lt_of_lt_of_le
      (removeAll_length_lt _ _ (by simp) h2) (removeAll_length_le _ _)

/-- The output of `delete_prefix` is never longer than its input. -/
theorem delete_prefix_length_le (botName message : Str) :
    ( delete_prefix botName message).length ≤ message.length := by
  by_cases h1 : ([' '] : Str).isPrefixOf (removeAll (BOT_MENTION botName) message)
  · rw [ delete_prefix_of_space botName message h1]
    exact Nat.le_of_lt (Nat.lt_of_le_of_lt (delete_prefix_length_le botName _)
      (Nat.lt_of_lt_of_le (removeAll_length_lt _ _ (by simp) h1) (removeAll_length_le _ _)))
  · by_cases h2 : (['\n'] : Str).isPrefixOf (removeAll (BOT_MENTION botName) message)
    · rw [ delete_prefix_of_newline botName message h1 h2]
      exact Nat.le_of_lt (Nat.lt_of_le_of_lt (delete_prefix_length_le botName _)
        (Nat.lt_of_lt_of_le (removeAll_length_lt _ _ (by simp) h2) (removeAll_length_le _ _)))
    · rw [ delete_prefix_of_none botName message h1 h2]
      exact removeAll_length_le _ _
termination_by message.length
decreasing_by
  · exact Nat.lt_of_lt_of_le
      (removeAll_length_lt _ _ (by simp) h1) (removeAll_length_le _ _)
  · exact Nat.lt_of_lt_of_le
      (removeAll_length_lt _ _ (by simp) h2) (removeAll_length_le _ _)

/-- Deleting a pattern that does not occur in the string leaves it unchanged. -/
theorem removeAll_of_not_contains (pat s : Str) (h : containsSub pat s = false) :
    removeAll pat s = s := by
  induction s with
  | nil => rfl
  | cons c rest ih =>
    rw [containsSub] at h
    have h1 : pat.isPrefixOf (c :: rest) = false := by
      cases hp : pat.isPrefixOf (c :: rest) <;> simp [hp] at h ⊢
    have h2 : containsSub pat rest = false := by
      cases hc : containsSub pat rest <;> simp [hc] at h ⊢
    show removeAllAux pat 0 (c :: rest) = c :: rest
    rw [removeAllAux, if_neg]
    · exact congrArg (c :: ·) (ih h2)
    · intro hcon
      rw [h1] at hcon
      exact absurd hcon.2 (by simp)

/-- `SYSTEM_PROMPT` from `main.py`. -/
def SYSTEM_PROMPT : Str :=
  ("This is a conversation between a user and an helpful assistant. The assistant thinks step-by-step and gives useful advise to the user, with detailed explanation why he gives such advise.").toList

/-- The `'message_changed'` subtype literal. -/
def MESSAGE_CHANGED : Str := "message_changed".toList

/-- The placeholder text `'生成なう'` ("generating now"). -/
def GENERATING : Str := "生成なう".toList

/-- The model identifier literal `'gpt-3.5-turbo'`. -/
def GPT_MODEL : Str := "gpt-3.5-turbo".toList

/-- One entry of the `messages` list returned by
`conversations_replies`: the fields of a Slack message the code reads. -/
structure SlackMessage where
  user : Str
  text : Str
  ts : Str
deriving Repr, DecidableEq

/-- A Slack `message` event: the fields of the event dict the code reads
(`channel`, `ts`, and the optional `thread_ts` and `subtype` accessed with
`.get`). -/
structure Event where
  channel : Str
  ts : Str
  thread_ts : Option Str
  subtype : Option Str
deriving Repr, DecidableEq

/-- One `{role, content}` record of the ChatGPT request. -/
structure PromptMessage where
  role : Str
  content : Str
deriving Repr, DecidableEq

/-- `completion.choices[i].message` of the OpenAI response. -/
structure ChoiceMessage where
  content : Str
deriving Repr, DecidableEq

/-- One element of `completion.choices`. -/
structure Choice where
  message : ChoiceMessage
deriving Repr, DecidableEq

/-- The OpenAI `ChatCompletion.create` response. -/
structure Completion where
  choices : List Choice
deriving Repr, DecidableEq

/-- An external call made by the handler, as recorded in its trace.
Only calls that returned successfully are recorded: a call that raises
contributes no action and aborts the handler. -/
inductive Action where
  | fetchReplies (channel ts : Str)
  | postMessage (channel thread_ts text : Str)
  | completionRequest (model : Str) (messages : List PromptMessage)
  | deleteMessage (channel ts : Str)
  | sayPost (text channel thread_ts : Str)
deriving Repr, DecidableEq

/-- The external collaborators (Slack client, OpenAI client, `say`), as
deterministic fallible functions.  `Except.error ()` models the client
library raising an exception. -/
structure World where
  fetch : Str → Str → Except Unit (List SlackMessage)
  post : Str → Str → Str → Except Unit Str
  complete : Str → List PromptMessage → Except Unit Completion
  delete : Str → Str → Except Unit Unit
  sayF : Str → Str → Str → Except Unit Unit

/-- Result of an effectful computation: the successfully completed external
calls in order, and the outcome (`Except.error ()` = an exception
propagates out of the handler). -/
abbrev Eff (α : Type) : Type := List Action × Except Unit α

/-- Return a value with no external call. -/
def pureE {α : Type} (a : α) : Eff α := ([], Except.ok a)

/-- A raised exception (e.g. an `IndexError`) with no external call. -/
def failE {α : Type} : Eff α := ([], Except.error ())

/-- Sequence two effectful computations; an exception in the first aborts
the second, and traces concatenate. -/
def bindE {α β : Type} (x : Eff α) (f : α → Eff β) : Eff β :=
  match x with
  | (tr, Except.error e) => (tr, Except.error e)
  | (tr, Except.ok a) => (tr ++ (f a).1, (f a).2)

/-- `app.client.conversations_replies(channel=..., ts=...)`. -/
def callFetch (w : World) (channel ts : Str) : Eff (List SlackMessage) :=
  match w.fetch channel ts with
  | Except.ok messages => ([Action.fetchReplies channel ts], Except.ok messages)
  | Except.error _ => ([], Except.error ())

/-- `app.client.chat_postMessage(channel=..., thread_ts=..., text=...)`,
returning the new message's `ts`. -/
def callPost (w : World) (channel thread_ts text : Str) : Eff Str :=
  match w.post channel thread_ts text with
  | Except.ok ts => ([Action.postMessage channel thread_ts text], Except.ok ts)
  | Except.error _ => ([], Except.error ())

/-- `openai.ChatCompletion.create(model=..., messages=...)`. -/
def callComplete (w : World) (model : Str) (messages : List PromptMessage) :
    Eff Completion :=
  match w.complete model messages with
  | Except.ok completion =>
    ([Action.completionRequest model messages], Except.ok completion)
  | Except.error _ => ([], Except.error ())

/-- `app.client.chat_delete(channel=..., ts=...)`. -/
def callDelete (w : World) (channel ts : Str) : Eff Unit :=
  match w.delete channel ts with
  | Except.ok _ => ([Action.deleteMessage channel ts], Except.ok ())
  | Except.error _ => ([], Except.error ())

/-- `say(text, channel=..., thread_ts=...)`. -/
def callSay (w : World) (text channel thread_ts : Str) : Eff Unit :=
  match w.sayF text channel thread_ts with
  | Except.ok _ => ([Action.sayPost text channel thread_ts], Except.ok ())
  | Except.error _ => ([], Except.error ())

/-- `should_run_completion` from `main.py`: `False` on a `message_changed`
subtype; otherwise fetch the thread of the event (its `thread_ts`, or its
own `ts` when absent) and trigger iff the first message's text contains the
bot mention and the last message's author is not the bot.  Indexing an
empty `messages` list raises (`failE`). -/
def should_run_completion (botName : Str) (w : World) (event : Event) : Eff Bool :=
  if event.subtype = some MESSAGE_CHANGED then pureE false
  else
    bindE (callFetch w event.channel (event.thread_ts.getD event.ts)) fun messages =>
      match messages with
      | [] => failE
      | m0 :: rest =>
        if containsSub (BOT_MENTION botName) m0.text
            ∧ ((m0 :: rest).getLastD m0).user ≠ botName then
          pureE true
        else
          pureE false

/-- The prompt list `create_messages` builds from a fetched thread: the
fixed system message, then one message per thread entry, `assistant` for
the bot's own messages, `user` otherwise, content prefix-stripped. -/
def promptMessages (botName : Str) (thread : List SlackMessage) : List PromptMessage :=
  ⟨"system".toList, SYSTEM_PROMPT⟩ ::
    thread.map fun message =>
      ⟨if message.user = botName then "assistant".toList else "user".toList,
        delete_prefix botName message.text⟩

/-- `create_messages` from `main.py`: fetch the thread (same key as the
trigger filter) and convert it to the ChatGPT message list. -/
def create_messages (botName : Str) (w : World) (event : Event) :
    Eff (List PromptMessage) :=
  bindE (callFetch w event.channel (event.thread_ts.getD event.ts)) fun messages =>
    pureE (promptMessages botName messages)

/-- `run_completion` from `main.py`: the `message` event handler.  Gate on
`should_run_completion`; resolve the thread root as the `ts` of the first
message of `conversations_replies(channel, ts=event['ts'])`; post the
placeholder; build the prompt; call ChatGPT; read `choices[0]`; delete the
placeholder; post the answer with `say`. -/
def run_completion (botName : Str) (w : World) (event : Event) : Eff Unit :=
  bindE (should_run_completion botName w event) fun trigger =>
    if trigger = false then pureE ()
    else
      bindE (callFetch w event.channel event.ts) fun messages =>
        match messages with
        | [] => failE
        | r0 :: _ =>
          let thread_ts := r0.ts
          bindE (callPost w event.channel thread_ts GENERATING) fun tmp_ts =>
            bindE (create_messages botName w event) fun prompt =>
              bindE (callComplete w GPT_MODEL prompt) fun completion =>
                match completion.choices with
                | [] => failE
                | choice0 :: _ =>
                  bindE (callDelete w event.channel tmp_ts) fun _ =>
                    callSay w choice0.message.content event.channel thread_ts

def wTest : World where
  fetch := fun _ _ => Except.ok [⟨"u1".toList, "x<@BOT>".toList, "1".toList⟩]
  post := fun _ _ _ => Except.ok ("2".toList)
  complete := fun _ _ => Except.ok ⟨[⟨⟨"ans".toList⟩⟩]⟩
  delete := fun _ _ => Except.ok ()
  sayF := fun _ _ _ => Except.ok ()

def evTest : Event := ⟨"C".toList, "1".toList, none, none⟩

/-- **C2** — for every non-edit chat event whose fetched thread has a
non-empty message list, the trigger filter performs the one thread fetch
and returns `true` iff the thread's first message text contains the bot
mention AND the last message's author is not the bot name; in the other
three truth-table combinations it returns `false`. -/
theorem should_run_completion_truth_table
    (botName : Str) (w : World) (event : Event)
    (m0 : SlackMessage) (rest : List SlackMessage)
    (hsub : event.subtype ≠ some MESSAGE_CHANGED)
    (hfetch : w.fetch event.channel (event.thread_ts.getD event.ts)
      = Except.ok (m0 :: rest)) :
    should_run_completion botName w event
      = ([Action.fetchReplies event.channel (event.thread_ts.getD event.ts)],
         Except.ok
           (if containsSub (BOT_MENTION botName) m0.text
               ∧ ((m0 :: rest).getLastD m0).user ≠ botName then true else false)) := by
  rw [should_run_completion, if_neg hsub]
  simp only [callFetch, hfetch, bindE]
  split <;> simp [pureE]

/-- Witness for C2 at a concrete input: thread `[{user u1, text "x<@BOT>"}]`,
bot `BOT` — the mention occurs in the first message, the last speaker is
not the bot, so the filter returns `true`. -/
theorem should_run_completion_truth_table_witness :
    evTest.subtype ≠ some MESSAGE_CHANGED
    ∧ should_run_completion ("BOT".toList) wTest evTest
      = ([Action.fetchReplies ("C".toList) ("1".toList)],
         Except.ok true) := by
  refine ⟨by decide, ?_⟩
  have h := should_run_completion_truth_table ("BOT".toList) wTest evTest
    ⟨"u1".toList, "x<@BOT>".toList, "1".toList⟩ [] (by decide) (by decide)
  simpa using h

/-- **C7** — for every event whose subtype is `message_changed`, the
trigger filter returns `false` with an empty trace: no thread is fetched,
whatever the world would answer. -/
theorem should_run_completion_edit_false
    (botName : Str) (w : World) (event : Event)
    (hsub : event.subtype = some MESSAGE_CHANGED) :
    should_run_completion botName w event = ([], Except.ok false) := by
  simp [should_run_completion, hsub, pureE]

/-- Witness for C7: a concrete `message_changed` event against a concrete
world returns `false` without any fetch action. -/
theorem should_run_completion_edit_false_witness :
    should_run_completion ("BOT".toList) wTest
        ⟨"C".toList, "1".toList, none, some MESSAGE_CHANGED⟩
      = ([], Except.ok false) :=
  should_run_completion_edit_false ("BOT".toList) wTest
    ⟨"C".toList, "1".toList, none, some MESSAGE_CHANGED⟩ rfl

/-- **C9** — for every non-edit event whose fetched thread is the empty
message list, the trigger filter raises (models the `IndexError` of
`thread['messages'][0]`) instead of returning a boolean: a non-empty
thread is a precondition of its contract. -/
theorem should_run_completion_empty_thread_raises
    (botName : Str) (w : World) (event : Event)
    (hsub : event.subtype ≠ some MESSAGE_CHANGED)
    (hfetch : w.fetch event.channel (event.thread_ts.getD event.ts)
      = Except.ok []) :
    should_run_completion botName w event
      = ([Action.fetchReplies event.channel (event.thread_ts.getD event.ts)],
         Except.error ()) := by
  rw [should_run_completion, if_neg hsub]
  simp [callFetch, hfetch, bindE, failE]

def wEmpty : World where
  fetch := fun _ _ => Except.ok []
  post := fun _ _ _ => Except.ok ("2".toList)
  complete := fun _ _ => Except.ok ⟨[⟨⟨"ans".toList⟩⟩]⟩
  delete := fun _ _ => Except.ok ()
  sayF := fun _ _ _ => Except.ok ()

/-- Witness for C9: a concrete non-edit event whose fetch returns an empty
list makes the filter raise. -/
theorem should_run_completion_empty_thread_raises_witness :
    should_run_completion ("BOT".toList) wEmpty evTest
      = ([Action.fetchReplies ("C".toList) ("1".toList)], Except.error ()) := by
  have h := should_run_completion_empty_thread_raises ("BOT".toList) wEmpty evTest
    (by decide) (by decide)
  simpa using h

/-- **C3** — for every chat event and fetched thread, `create_messages`
performs the one thread fetch and returns a list that begins with exactly
one system message, followed by exactly one message per thread entry in
the thread's order; entry `i` gets role `assistant` iff its author is the
bot name (else `user`) and content `delete_prefix` of its text. -/
theorem create_messages_shape
    (botName : Str) (w : World) (event : Event) (thread : List SlackMessage)
    (hfetch : w.fetch event.channel (event.thread_ts.getD event.ts)
      = Except.ok thread) :
    create_messages botName w event
      = ([Action.fetchReplies event.channel (event.thread_ts.getD event.ts)],
         Except.ok (promptMessages botName thread))
    ∧ (promptMessages botName thread).head? = some ⟨"system".toList, SYSTEM_PROMPT⟩
    ∧ (promptMessages botName thread).length = thread.length + 1
    ∧ ∀ i : Nat, (promptMessages botName thread)[i + 1]? =
        (thread[i]?).map fun message =>
          ⟨if message.user = botName then "assistant".toList else "user".toList,
            delete_prefix botName message.text⟩ := by
  refine ⟨?_, rfl, by simp [promptMessages], ?_⟩
  · simp [create_messages, callFetch, hfetch, bindE, pureE]
  · intro i
    simp [promptMessages]

/-- Witness for C3 at the concrete test thread: the prompt is the system
message followed by one `user` message whose content is the stripped text
`"x"` (from `"x<@BOT>"`). -/
theorem create_messages_shape_witness :
    create_messages ("BOT".toList) wTest evTest
      = ([Action.fetchReplies ("C".toList) ("1".toList)],
         Except.ok [⟨"system".toList, SYSTEM_PROMPT⟩,
           ⟨"user".toList, "x".toList⟩]) := by
  have h := (create_messages_shape ("BOT".toList) wTest evTest
    [⟨"u1".toList, "x<@BOT>".toList, "1".toList⟩] (by decide)).1
  rw [h, promptMessages]
  simp only [List.map_cons, List.map_nil]
  rw [ delete_prefix_of_none _ _ (by decide) (by decide)]
  decide

/-- Trace of the handler on the happy path, as one equation: given a
triggering thread and all external calls succeeding, `run_completion`
performs exactly these seven calls in this order. -/
theorem runCompletion_trace
    (botName : Str) (w : World) (event : Event)
    (m0 : SlackMessage) (rest : List SlackMessage)
    (r0 : SlackMessage) (rrest : List SlackMessage)
    (tmpTs : Str) (compl : Completion) (choice0 : Choice) (crest : List Choice)
    (hsub : event.subtype ≠ some MESSAGE_CHANGED)
    (hfetchThread : w.fetch event.channel (event.thread_ts.getD event.ts)
      = Except.ok (m0 :: rest))
    (htrig : containsSub (BOT_MENTION botName) m0.text
      ∧ ((m0 :: rest).getLastD m0).user ≠ botName)
    (hfetchTs : w.fetch event.channel event.ts = Except.ok (r0 :: rrest))
    (hpost : w.post event.channel r0.ts GENERATING = Except.ok tmpTs)
    (hcomplete : w.complete GPT_MODEL
      (promptMessages botName (m0 :: rest)) = Except.ok compl)
    (hchoices : compl.choices = choice0 :: crest)
    (hdelete : w.delete event.channel tmpTs = Except.ok ())
    (hsay : w.sayF choice0.message.content event.channel r0.ts = Except.ok ()) :
    run_completion botName w event =
      ([Action.fetchReplies event.channel (event.thread_ts.getD event.ts),
        Action.fetchReplies event.channel event.ts,
        Action.postMessage event.channel r0.ts GENERATING,
        Action.fetchReplies event.channel (event.thread_ts.getD event.ts),
        Action.completionRequest GPT_MODEL
          (promptMessages botName (m0 :: rest)),
        Action.deleteMessage event.channel tmpTs,
        Action.sayPost choice0.message.content event.channel r0.ts],
       Except.ok ()) := by
  have hONE : should_run_completion botName w event
      = ([Action.fetchReplies event.channel (event.thread_ts.getD event.ts)],
         Except.ok true) := by
    rw [should_run_completion, if_neg hsub]
    simp only [callFetch, hfetchThread, bindE]
    rw [if_pos htrig]
    simp [pureE]
  simp [run_completion, create_messages, hONE, bindE, callFetch, callPost,
    callComplete, callDelete, callSay, hfetchTs, hfetchThread, hpost,
    hcomplete, hchoices, hdelete, hsay, pureE]

/-- **C4** — on the happy path (trigger passes, every external call
succeeds), the handler performs exactly one placeholder post, one outbound
completion request, one placeholder delete and one final answer post, in
that order: the placeholder is posted before the completion request, and
deleted after the completion response and before the final answer. -/
theorem run_completion_happy_path
    (botName : Str) (w : World) (event : Event)
    (m0 : SlackMessage) (rest : List SlackMessage)
    (r0 : SlackMessage) (rrest : List SlackMessage)
    (tmpTs : Str) (compl : Completion) (choice0 : Choice) (crest : List Choice)
    (hsub : event.subtype ≠ some MESSAGE_CHANGED)
    (hfetchThread : w.fetch event.channel (event.thread_ts.getD event.ts)
      = Except.ok (m0 :: rest))
    (htrig : containsSub (BOT_MENTION botName) m0.text
      ∧ ((m0 :: rest).getLastD m0).user ≠ botName)
    (hfetchTs : w.fetch event.channel event.ts = Except.ok (r0 :: rrest))
    (hpost : w.post event.channel r0.ts GENERATING = Except.ok tmpTs)
    (hcomplete : w.complete GPT_MODEL
      (promptMessages botName (m0 :: rest)) = Except.ok compl)
    (hchoices : compl.choices = choice0 :: crest)
    (hdelete : w.delete event.channel tmpTs = Except.ok ())
    (hsay : w.sayF choice0.message.content event.channel r0.ts = Except.ok ()) :
    run_completion botName w event =
      ([Action.fetchReplies event.channel (event.thread_ts.getD event.ts),
        Action.fetchReplies event.channel event.ts,
        Action.postMessage event.channel r0.ts GENERATING,
        Action.fetchReplies event.channel (event.thread_ts.getD event.ts),
        Action.completionRequest GPT_MODEL
          (promptMessages botName (m0 :: rest)),
        Action.deleteMessage event.channel tmpTs,
        Action.sayPost choice0.message.content event.channel r0.ts],
       Except.ok ()) :=
  runCompletion_trace botName w event m0 rest r0 rrest tmpTs compl choice0 crest
    hsub hfetchThread htrig hfetchTs hpost hcomplete hchoices hdelete hsay

/-- Witness for C4 at a fully concrete world and event: the seven calls,
with the placeholder posted at `ts = "2"` and later deleted, and the
answer `"ans"` said last. -/
theorem run_completion_happy_path_witness :
    run_completion ("BOT".toList) wTest evTest
      = ([Action.fetchReplies ("C".toList) ("1".toList),
          Action.fetchReplies ("C".toList) ("1".toList),
          Action.postMessage ("C".toList) ("1".toList) GENERATING,
          Action.fetchReplies ("C".toList) ("1".toList),
          Action.completionRequest GPT_MODEL
            [⟨"system".toList, SYSTEM_PROMPT⟩, ⟨"user".toList, "x".toList⟩],
          Action.deleteMessage ("C".toList) ("2".toList),
          Action.sayPost ("ans".toList) ("C".toList) ("1".toList)],
         Except.ok ()) := by
  have h := run_completion_happy_path ("BOT".toList) wTest evTest
    ⟨"u1".toList, "x<@BOT>".toList, "1".toList⟩ []
    ⟨"u1".toList, "x<@BOT>".toList, "1".toList⟩ []
    ("2".toList) ⟨[⟨⟨"ans".toList⟩⟩]⟩ ⟨⟨"ans".toList⟩⟩ []
    (by decide) (by decide) (by decide) (by decide) (by decide) rfl rfl rfl rfl
  rw [h, promptMessages]
  simp only [List.map_cons, List.map_nil]
  rw [ delete_prefix_of_none _ _ (by decide) (by decide)]
  decide

/-- **C10** — on the happy path, the final answer said into the chat is
exactly `completion.choices[0].message.content`, untransformed, and it is
posted with the same thread-root timestamp (`r0.ts`) as the placeholder
message. -/
theorem run_completion_final_answer
    (botName : Str) (w : World) (event : Event)
    (m0 : SlackMessage) (rest : List SlackMessage)
    (r0 : SlackMessage) (rrest : List SlackMessage)
    (tmpTs : Str) (compl : Completion) (choice0 : Choice) (crest : List Choice)
    (hsub : event.subtype ≠ some MESSAGE_CHANGED)
    (hfetchThread : w.fetch event.channel (event.thread_ts.getD event.ts)
      = Except.ok (m0 :: rest))
    (htrig : containsSub (BOT_MENTION botName) m0.text
      ∧ ((m0 :: rest).getLastD m0).user ≠ botName)
    (hfetchTs : w.fetch event.channel event.ts = Except.ok (r0 :: rrest))
    (hpost : w.post event.channel r0.ts GENERATING = Except.ok tmpTs)
    (hcomplete : w.complete GPT_MODEL
      (promptMessages botName (m0 :: rest)) = Except.ok compl)
    (hchoices : compl.choices = choice0 :: crest)
    (hdelete : w.delete event.channel tmpTs = Except.ok ())
    (hsay : w.sayF choice0.message.content event.channel r0.ts = Except.ok ()) :
    Action.sayPost choice0.message.content event.channel r0.ts
      ∈ (run_completion botName w event).1
    ∧ Action.postMessage event.channel r0.ts GENERATING
      ∈ (run_completion botName w event).1 := by
  rw [runCompletion_trace botName w event m0 rest r0 rrest tmpTs compl choice0 crest
    hsub hfetchThread htrig hfetchTs hpost hcomplete hchoices hdelete hsay]
  exact ⟨by simp, by simp⟩

/-- Witness for C10: in the concrete happy-path run, the answer `"ans"` is
said with thread-root `"1"`, the same thread-root the placeholder used. -/
theorem run_completion_final_answer_witness :
    Action.sayPost ("ans".toList) ("C".toList) ("1".toList)
      ∈ (run_completion ("BOT".toList) wTest evTest).1
    ∧ Action.postMessage ("C".toList) ("1".toList) GENERATING
      ∈ (run_completion ("BOT".toList) wTest evTest).1 :=
  run_completion_final_answer ("BOT".toList) wTest evTest
    ⟨"u1".toList, "x<@BOT>".toList, "1".toList⟩ []
    ⟨"u1".toList, "x<@BOT>".toList, "1".toList⟩ []
    ("2".toList) ⟨[⟨⟨"ans".toList⟩⟩]⟩ ⟨⟨"ans".toList⟩⟩ []
    (by decide) (by decide) (by decide) (by decide) (by decide) rfl rfl rfl rfl

/-- The trigger filter's result when the condition holds, as one equation
(helper shared by the orchestrator proofs). -/
theorem shouldRun_eq_true
    (botName : Str) (w : World) (event : Event)
    (m0 : SlackMessage) (rest : List SlackMessage)
    (hsub : event.subtype ≠ some MESSAGE_CHANGED)
    (hfetch : w.fetch event.channel (event.thread_ts.getD event.ts)
      = Except.ok (m0 :: rest))
    (htrig : containsSub (BOT_MENTION botName) m0.text
      ∧ ((m0 :: rest).getLastD m0).user ≠ botName) :
    should_run_completion botName w event
      = ([Action.fetchReplies event.channel (event.thread_ts.getD event.ts)],
         Except.ok true) := by
  rw [should_run_completion, if_neg hsub]
  simp only [callFetch, hfetch, bindE]
  rw [if_pos htrig]
  simp [pureE]

/-- **C5 (amended)** — if, after the placeholder has been posted, the
remote completion call raises, or its response has no choices, or the
placeholder delete raises, then the handler makes no further chat-platform
call: no delete and no `say` post ever completes, so the placeholder is
never deleted and never replaced, no final answer is posted, and the
exception propagates (outcome `error`).  (The case the original claim also
covered, a failure of the final `say` post itself, is excluded: there the
placeholder has already been deleted — see the counterexample.) -/
theorem run_completion_failure_strands_placeholder
    (botName : Str) (w : World) (event : Event)
    (m0 : SlackMessage) (rest : List SlackMessage)
    (r0 : SlackMessage) (rrest : List SlackMessage)
    (tmpTs : Str)
    (hsub : event.subtype ≠ some MESSAGE_CHANGED)
    (hfetchThread : w.fetch event.channel (event.thread_ts.getD event.ts)
      = Except.ok (m0 :: rest))
    (htrig : containsSub (BOT_MENTION botName) m0.text
      ∧ ((m0 :: rest).getLastD m0).user ≠ botName)
    (hfetchTs : w.fetch event.channel event.ts = Except.ok (r0 :: rrest))
    (hpost : w.post event.channel r0.ts GENERATING = Except.ok tmpTs)
    (hfail : w.complete GPT_MODEL (promptMessages botName (m0 :: rest))
        = Except.error ()
      ∨ (∃ compl, w.complete GPT_MODEL (promptMessages botName (m0 :: rest))
          = Except.ok compl ∧ compl.choices = [])
      ∨ (∃ compl choice0 crest,
          w.complete GPT_MODEL (promptMessages botName (m0 :: rest))
            = Except.ok compl
          ∧ compl.choices = choice0 :: crest
          ∧ w.delete event.channel tmpTs = Except.error ())) :
    (run_completion botName w event).2 = Except.error ()
    ∧ (∀ ch ts, Action.deleteMessage ch ts ∉ (run_completion botName w event).1)
    ∧ (∀ t ch ts, Action.sayPost t ch ts ∉ (run_completion botName w event).1) := by
  have hONE := shouldRun_eq_true botName w event m0 rest hsub hfetchThread htrig
  rcases hfail with hc | ⟨compl, hc, hch⟩ | ⟨compl, choice0, crest, hc, hch, hd⟩
  · have heq : run_completion botName w event
        = ([Action.fetchReplies event.channel (event.thread_ts.getD event.ts),
            Action.fetchReplies event.channel event.ts,
            Action.postMessage event.channel r0.ts GENERATING,
            Action.fetchReplies event.channel (event.thread_ts.getD event.ts)],
           Except.error ()) := by
      simp [run_completion, create_messages, hONE, bindE, callFetch, callPost,
        callComplete, hfetchTs, hfetchThread, hpost, hc, pureE]
    rw [heq]
    exact ⟨rfl, fun ch ts => by simp, fun t ch ts => by simp⟩
  · have heq : run_completion botName w event
        = ([Action.fetchReplies event.channel (event.thread_ts.getD event.ts),
            Action.fetchReplies event.channel event.ts,
            Action.postMessage event.channel r0.ts GENERATING,
            Action.fetchReplies event.channel (event.thread_ts.getD event.ts),
            Action.completionRequest GPT_MODEL (promptMessages botName (m0 :: rest))],
           Except.error ()) := by
      simp [run_completion, create_messages, hONE, bindE, callFetch, callPost,
        callComplete, hfetchTs, hfetchThread, hpost, hc, hch, pureE, failE]
    rw [heq]
    exact ⟨rfl, fun ch ts => by simp, fun t ch ts => by simp⟩
  · have heq : run_completion botName w event
        = ([Action.fetchReplies event.channel (event.thread_ts.getD event.ts),
            Action.fetchReplies event.channel event.ts,
            Action.postMessage event.channel r0.ts GENERATING,
            Action.fetchReplies event.channel (event.thread_ts.getD event.ts),
            Action.completionRequest GPT_MODEL (promptMessages botName (m0 :: rest))],
           Except.error ()) := by
      simp [run_completion, create_messages, hONE, bindE, callFetch, callPost,
        callComplete, callDelete, hfetchTs, hfetchThread, hpost, hc, hch, hd,
        pureE, failE]
    rw [heq]
    exact ⟨rfl, fun ch ts => by simp, fun t ch ts => by simp⟩

def wFailComplete : World where
  fetch := fun _ _ => Except.ok [⟨"u1".toList, "x<@BOT>".toList, "1".toList⟩]
  post := fun _ _ _ => Except.ok ("2".toList)
  complete := fun _ _ => Except.error ()
  delete := fun _ _ => Except.ok ()
  sayF := fun _ _ _ => Except.ok ()

/-- Witness for the amended C5: with the completion call raising after the
placeholder post, the concrete run ends in an error, and neither the
placeholder's delete nor any `say` post ever completes. -/
theorem run_completion_failure_strands_placeholder_witness :
    (run_completion ("BOT".toList) wFailComplete evTest).2 = Except.error ()
    ∧ Action.deleteMessage ("C".toList) ("2".toList)
        ∉ (run_completion ("BOT".toList) wFailComplete evTest).1
    ∧ Action.sayPost ("ans".toList) ("C".toList) ("1".toList)
        ∉ (run_completion ("BOT".toList) wFailComplete evTest).1 := by
  have h := run_completion_failure_strands_placeholder ("BOT".toList) wFailComplete
    evTest ⟨"u1".toList, "x<@BOT>".toList, "1".toList⟩ []
    ⟨"u1".toList, "x<@BOT>".toList, "1".toList⟩ [] ("2".toList)
    (by decide) (by decide) (by decide) (by decide) (by decide) (Or.inl rfl)
  exact ⟨h.1, h.2.1 _ _, h.2.2 _ _ _⟩

def wSayFail : World where
  fetch := fun _ _ => Except.ok [⟨"u1".toList, "x<@BOT>".toList, "1".toList⟩]
  post := fun _ _ _ => Except.ok ("2".toList)
  complete := fun _ _ => Except.ok ⟨[⟨⟨"ans".toList⟩⟩]⟩
  delete := fun _ _ => Except.ok ()
  sayF := fun _ _ _ => Except.error ()

/-- Trace of the handler when everything succeeds except the final `say`
post: the placeholder delete completes, then the error propagates. -/
theorem runCompletion_trace_sayFail
    (botName : Str) (w : World) (event : Event)
    (m0 : SlackMessage) (rest : List SlackMessage)
    (r0 : SlackMessage) (rrest : List SlackMessage)
    (tmpTs : Str) (compl : Completion) (choice0 : Choice) (crest : List Choice)
    (hsub : event.subtype ≠ some MESSAGE_CHANGED)
    (hfetchThread : w.fetch event.channel (event.thread_ts.getD event.ts)
      = Except.ok (m0 :: rest))
    (htrig : containsSub (BOT_MENTION botName) m0.text
      ∧ ((m0 :: rest).getLastD m0).user ≠ botName)
    (hfetchTs : w.fetch event.channel event.ts = Except.ok (r0 :: rrest))
    (hpost : w.post event.channel r0.ts GENERATING = Except.ok tmpTs)
    (hcomplete : w.complete GPT_MODEL
      (promptMessages botName (m0 :: rest)) = Except.ok compl)
    (hchoices : compl.choices = choice0 :: crest)
    (hdelete : w.delete event.channel tmpTs = Except.ok ())
    (hsay : w.sayF choice0.message.content event.channel r0.ts
      = Except.error ()) :
    run_completion botName w event =
      ([Action.fetchReplies event.channel (event.thread_ts.getD event.ts),
        Action.fetchReplies event.channel event.ts,
        Action.postMessage event.channel r0.ts GENERATING,
        Action.fetchReplies event.channel (event.thread_ts.getD event.ts),
        Action.completionRequest GPT_MODEL (promptMessages botName (m0 :: rest)),
        Action.deleteMessage event.channel tmpTs],
       Except.error ()) := by
  have hONE := shouldRun_eq_true botName w event m0 rest hsub hfetchThread htrig
  simp [run_completion, create_messages, hONE, bindE, callFetch, callPost,
    callComplete, callDelete, callSay, hfetchTs, hfetchThread, hpost,
    hcomplete, hchoices, hdelete, hsay, pureE]

/-- **C5 counterexample** — the claim quantifies over "the remote
completion call (or any later step)" raising and asserts the placeholder
is then never deleted.  Here the later step that raises is the final
`say` post itself: the run does end in a propagated error, yet the
placeholder's delete has already completed, refuting the claim. -/
theorem run_completion_say_failure_deletes_placeholder :
    (run_completion ("BOT".toList) wSayFail evTest).2 = Except.error ()
    ∧ Action.deleteMessage ("C".toList) ("2".toList)
        ∈ (run_completion ("BOT".toList) wSayFail evTest).1 := by
  have h := runCompletion_trace_sayFail ("BOT".toList) wSayFail evTest
    ⟨"u1".toList, "x<@BOT>".toList, "1".toList⟩ []
    ⟨"u1".toList, "x<@BOT>".toList, "1".toList⟩ []
    ("2".toList) ⟨[⟨⟨"ans".toList⟩⟩]⟩ ⟨⟨"ans".toList⟩⟩ []
    (by decide) (by decide) (by decide) (by decide) (by decide) rfl rfl rfl rfl
  rw [h]
  exact ⟨rfl, by simp [evTest]⟩

/-- **C1** (the code at the failing input) — the transform deletes interior
whitespace, not only leading: on `"<@BOT> hello world"` it returns
`"helloworld"`, because `message.replace(prefix, '')` deletes every space
in the string, while the function's own docstring (and the spec) promise
to strip only at the start; the expected `"hello world"` differs. -/
theorem delete_prefix_deletes_interior_space :
    delete_prefix ("BOT".toList) ("<@BOT> hello world".toList) = "helloworld".toList
    ∧ "helloworld".toList ≠ "hello world".toList := by
  constructor
  · rw [ delete_prefix_of_space _ _ (by decide),
      delete_prefix_of_none _ _ (by decide) (by decide)]
    decide
  · decide

/-- **C6 counterexample** — `delete_prefix` is not idempotent on every
input: on `"<@BOT<@BOT>>"` the first pass deletes the inner mention, which
splices the surrounding text into a fresh `"<@BOT>"`; the second pass
deletes that too, so applying the transform twice differs from once. -/
theorem delete_prefix_not_idempotent :
    delete_prefix ("BOT".toList)
        ( delete_prefix ("BOT".toList) ("<@BOT<@BOT>>".toList))
      ≠ delete_prefix ("BOT".toList) ("<@BOT<@BOT>>".toList) := by
  have h1 : delete_prefix ("BOT".toList) ("<@BOT<@BOT>>".toList)
      = "<@BOT>".toList := by
    rw [ delete_prefix_of_none _ _ (by decide) (by decide)]
    decide
  rw [h1, delete_prefix_of_none _ _ (by decide) (by decide)]
  decide

/-- **C6 (amended)** — `delete_prefix` is idempotent on every input whose
output contains no occurrence of the bot-mention token (deleting mentions
can splice a new mention together, as in the counterexample; when it does
not, a second application changes nothing, since the output also never
starts with a space or newline). -/
theorem delete_prefix_idempotent_of_no_mention (botName message : Str)
    (h : containsSub (BOT_MENTION botName) ( delete_prefix botName message) = false) :
    delete_prefix botName ( delete_prefix botName message)
      = delete_prefix botName message := by
  have hr : removeAll (BOT_MENTION botName) ( delete_prefix botName message)
      = delete_prefix botName message := removeAll_of_not_contains _ _ h
  have hnl := delete_prefix_no_leading botName message
  have h1 : ¬ (([' '] : Str).isPrefixOf
      (removeAll (BOT_MENTION botName) ( delete_prefix botName message))) := by
    rw [hr]
    simp [hnl.1]
  have h2 : ¬ ((['\n'] : Str).isPrefixOf
      (removeAll (BOT_MENTION botName) ( delete_prefix botName message))) := by
    rw [hr]
    simp [hnl.2]
  rw [ delete_prefix_of_none _ _ h1 h2, hr]

/-- Witness for the amended C6: on `"hi"` (no mention in the output) the
transform is idempotent. -/
theorem delete_prefix_idempotent_of_no_mention_witness :
    containsSub (BOT_MENTION ("BOT".toList))
        ( delete_prefix ("BOT".toList) ("hi".toList)) = false
    ∧ delete_prefix ("BOT".toList) ( delete_prefix ("BOT".toList) ("hi".toList))
      = delete_prefix ("BOT".toList) ("hi".toList) := by
  have h : containsSub (BOT_MENTION ("BOT".toList))
      ( delete_prefix ("BOT".toList) ("hi".toList)) = false := by
    rw [ delete_prefix_of_none _ _ (by decide) (by decide)]
    decide
  exact ⟨h, delete_prefix_idempotent_of_no_mention ("BOT".toList) ("hi".toList) h⟩

/-- **C8** — termination of `delete_prefix`: whenever a recursion step
fires (the mention-free text starts with the one-character prefix `c`),
deleting that character strictly shortens the string relative to the
original message, so the length measure decreases and `delete_prefix` is a
total function — in particular its output never exceeds its input in
length. -/
theorem delete_prefix_terminates (botName message : Str) (c : Char)
    (hpre : ([c] : Str).isPrefixOf (removeAll (BOT_MENTION botName) message)) :
    (removeAll ([c] : Str) (removeAll (BOT_MENTION botName) message)).length
        < message.length
    ∧ ( delete_prefix botName message).length ≤ message.length :=
  ⟨Nat.lt_of_lt_of_le (removeAll_length_lt _ _ (by simp) hpre)
      (removeAll_length_le _ _),
    delete_prefix_length_le botName message⟩

/-- Witness for C8 at `"<@BOT> hi"`: after mention removal the text starts
with a space, the space-deleting step strictly shortens, and the final
output is not longer than the input. -/
theorem delete_prefix_terminates_witness :
    (([' '] : Str).isPrefixOf
        (removeAll (BOT_MENTION ("BOT".toList)) ("<@BOT> hi".toList)))
    ∧ (removeAll ([' '] : Str)
          (removeAll (BOT_MENTION ("BOT".toList)) ("<@BOT> hi".toList))).length
        < ("<@BOT> hi".toList).length
    ∧ ( delete_prefix ("BOT".toList) ("<@BOT> hi".toList)).length
        ≤ ("<@BOT> hi".toList).length := by
  have h := delete_prefix_terminates ("BOT".toList) ("<@BOT> hi".toList) ' '
    (by decide)
  exact ⟨by decide, h.1, h.2⟩

end SlackBot
